import Mathlib

/-!
# Verification of the WeChat MCP server against its specification

Shallow embedding of `src/wechat_controller.py` and `src/mcp_server.py`.
GUI, clipboard and process effects are modelled by explicit environments:
each OS/automation call that can raise an exception is represented by a
boolean flag in the environment, and the system clipboard is threaded as an
`Option String` (`none` = no Unicode-text content readable).
-/

namespace WeChatMCP

/-- Python truthiness of an optional string: `None` and `""` are falsy. -/
def truthy : Option String → Bool
  | none => false
  | some s => s ≠ ""

/-- Substring containment on character lists: `pat` occurs in `hay` when it
is a prefix of some suffix of `hay`. -/
def containsAux : List Char → List Char → Bool
  | [], pat => pat.isEmpty
  | h :: t, pat => pat.isPrefixOf (h :: t) || containsAux t pat

/-- `pat in hay` for Python strings (substring containment). -/
def strContains (hay pat : String) : Bool :=
  containsAux hay.toList pat.toList

/-- `s.lower()` (character-wise; sufficient for the ASCII process names the
detector compares). -/
def strToLower (s : String) : String :=
  String.mk (s.toList.map Char.toLower)

/-- Python `str(x)` for an optional string: `None` prints as "None". -/
def pyOptStr : Option String → String
  | none => "None"
  | some s => s

/-- Python `str(b)` for a bool. -/
def pyBoolStr : Bool → String
  | true => "True"
  | false => "False"

/-! ## Data model: processes, windows, controller state -/

/-- One entry of `psutil.process_iter` with fields pid/name/exe.
`fileVersion = some (ms, ls)` models a successful
`win32api.GetFileVersionInfo` read with packed 32-bit fields
`FileVersionMS`/`FileVersionLS`; `none` models that call raising. -/
structure ProcInfo where
  name : Option String
  exe : Option String
  fileVersion : Option (Nat × Nat)
deriving Repr, DecidableEq

/-- One visible-or-not OS top-level window as consulted by
`win32gui` (`IsWindowVisible`, `GetWindowText`, `GetClassName`,
`GetWindowRect`). -/
structure WindowInfo where
  hwnd : Nat
  visible : Bool
  title : String
  className : String
  rect : Int × Int × Int × Int
deriving Repr, DecidableEq

/-- The mutable detection cache on the `WeChatController` instance
(`self.wechat_version`, `self.is_nt_version`). -/
structure CtrlState where
  wechat_version : Option String
  is_nt_version : Bool
deriving Repr, DecidableEq

/-- Controller state right after `__init__`. -/
def initialCtrlState : CtrlState :=
  { wechat_version := none, is_nt_version := false }

/-! ## Version & capability detector (`_detect_wechat_version`) -/

/-- The version string built from the two packed fields:
`f"{ms >> 16}.{ms & 0xFFFF}.{ls >> 16}.{ls & 0xFFFF}"`. -/
def versionString (ms ls : Nat) : String :=
  toString (ms >>> 16) ++ "." ++ toString (ms % 65536) ++ "." ++
    toString (ls >>> 16) ++ "." ++ toString (ls % 65536)

/-- Guard `wechat in name.lower()` on a truthy process name. -/
def procNameMatches : Option String → Bool
  | some n => strContains (strToLower n) "wechat"
  | none => false

/-- `WeChatController._detect_wechat_version`: walk the process list; for the
first wechat-named process with a truthy `exe` whose version resource is
readable, set `wechat_version` and `is_nt_version` (major ≥ 4) and return the
version string; a failing version read is logged and the loop continues; no
match leaves the cached state untouched and returns `None`.
Python int of the first dotted component of the constructed string equals `ms >>> 16`. -/
def detectWechatVersion : List ProcInfo → CtrlState → Option String × CtrlState
  | [], st => (none, st)
  | p :: ps, st =>
    if procNameMatches p.name && truthy p.exe then
      match p.fileVersion with
      | some (ms, ls) =>
        let v := versionString ms ls
        (some v, { wechat_version := some v, is_nt_version := decide (4 ≤ ms >>> 16) })
      | none => detectWechatVersion ps st
    else detectWechatVersion ps st

/-- The `(FileVersionMS, FileVersionLS)` pair that the detection loop ends up
using: the first wechat-named process with truthy `exe` and a readable
version resource (mirrors the loop structure of `_detect_wechat_version`). -/
def firstDetectable : List ProcInfo → Option (Nat × Nat)
  | [] => none
  | p :: ps =>
    if procNameMatches p.name && truthy p.exe then
      match p.fileVersion with
      | some v => some v
      | none => firstDetectable ps
    else firstDetectable ps

/-! ## Window locator & classifier (`_find_wechat_window`) -/

/-- `re.match(r"Qt\d+QWindowIcon", s)`: prefix "Qt", one or more digits,
then "QWindowIcon" (prefix match; the regex is anchored at the start only). -/
def matchQtClass (s : String) : Bool :=
  match s.toList with
  | 'Q' :: 't' :: rest =>
    let ds := rest.takeWhile (·.isDigit)
    !ds.isEmpty && "QWindowIcon".toList.isPrefixOf (rest.drop ds.length)
  | _ => false

/-- `re.match` of any of the three NT class-name patterns against the
window class name (plain-string patterns match as prefixes). -/
def ntClassMatch (cls : String) : Bool :=
  matchQtClass cls ||
    "WeChatMainWndForPC".toList.isPrefixOf cls.toList ||
    "ChatWnd".toList.isPrefixOf cls.toList

/-- Legacy detection: window title contains "微信" or "WeChat". -/
def legacyTitleMatch (title : String) : Bool :=
  strContains title "微信" || strContains title "WeChat"

/-- Classification of one enumerated window, as the `enum_windows_callback`
does it: invisible windows are skipped; NT class patterns are checked first,
then the legacy title patterns. -/
inductive WinKind where
  | nt
  | legacy
deriving Repr, DecidableEq

/-- The classification the enumeration callback assigns to a window
(`none` = the callback appends nothing for this window). -/
def classifyWindow (w : WindowInfo) : Option WinKind :=
  if !w.visible then none
  else if ntClassMatch w.className then some WinKind.nt
  else if legacyTitleMatch w.title then some WinKind.legacy
  else none

/-- The candidate list built by `win32gui.EnumWindows` with the callback,
in enumeration order. -/
def wechatCandidates (ws : List WindowInfo) : List (Nat × WinKind) :=
  ws.filterMap (fun w => (classifyWindow w).map (fun k => (w.hwnd, k)))

/-- `WeChatController._find_wechat_window`: first NT-classified candidate if
any, else the first candidate (necessarily legacy), else `None`. -/
def findWechatWindow (ws : List WindowInfo) : Option Nat :=
  match (wechatCandidates ws).filter (fun c => c.2 == WinKind.nt) with
  | c :: _ => some c.1
  | [] =>
    match wechatCandidates ws with
    | c :: _ => some c.1
    | [] => none

/-! ## Foreground activation (`_activate_window`) -/

/-- Exception behaviour of the two `win32gui` calls made by
`_activate_window`, plus whether the window actually ends up foreground
(which the code never consults). -/
structure ActivateEnv where
  showWindowRaises : Bool
  setForegroundRaises : Bool
  windowIsForegroundAfter : Bool
deriving Repr, DecidableEq

/-- `WeChatController._activate_window`: `ShowWindow(SW_RESTORE)`,
`SetForegroundWindow`, `time.sleep(0.5)`, return `True`; any exception is
caught and yields `False`. No foreground confirmation is performed. -/
def activateWindow (env : ActivateEnv) (_hwnd : Nat) : Bool :=
  if env.showWindowRaises then false
  else if env.setForegroundRaises then false
  else true

/-! ## Clipboard-mediated text injection (`_input_text_via_keyboard`) -/

/-- Exception flags for the steps of `_input_text_via_keyboard`:
the select-all/delete hotkeys, the clipboard-write block
(`OpenClipboard`/`EmptyClipboard`/`SetClipboardText`), the `Ctrl+V` paste,
and the restore block. The entry read (`GetClipboardData`) tolerates
"no text content" as `None`, folded into the clipboard value itself. -/
structure InjectEnv where
  clearRaises : Bool
  setClipboardRaises : Bool
  pasteRaises : Bool
  restoreRaises : Bool
deriving Repr, DecidableEq

/-- Result of one injection: the returned bool, the system clipboard
afterwards, and whether the restore step was reached at all. -/
structure InjectResult where
  ok : Bool
  clipboard : Option String
  restoreAttempted : Bool
deriving Repr, DecidableEq

/-- `WeChatController._input_text_via_keyboard`: snapshot the clipboard
(`None` when no text content), clear the field, write `text` to the
clipboard, paste, then restore the snapshot — but only when the snapshot is
not `None`. Any exception is caught by the enclosing `except`, which returns
`False` without running the restore (there is no `finally`). On a raise in
the clipboard-write block the clipboard has already been emptied. -/
def inputTextViaKeyboard (env : InjectEnv) (clip : Option String)
    (text : String) : InjectResult :=
  let original := clip
  if env.clearRaises then ⟨false, clip, false⟩
  else if env.setClipboardRaises then ⟨false, none, false⟩
  else if env.pasteRaises then ⟨false, some text, false⟩
  else
    match original with
    | some orig =>
      if env.restoreRaises then ⟨false, some text, true⟩
      else ⟨true, some orig, true⟩
    | none => ⟨true, some text, false⟩

/-- All four exception flags of an injection environment are off. -/
def InjectEnv.noRaise (e : InjectEnv) : Bool :=
  !e.clearRaises && !e.setClipboardRaises && !e.pasteRaises && !e.restoreRaises

/-! ## Input-box locator (`_find_and_click_input_box`) -/

/-- Per-candidate-position exception flags for the click-and-probe loop
(`pyautogui.click` / `typewrite` / `backspace`); `true` at index `i` means
trying position `i` raises, and the loop continues. Missing entries default
to `false` (the try succeeds). -/
structure InputBoxEnv where
  posRaises : List Bool
deriving Repr, DecidableEq

/-- The five candidate click positions computed from the window rectangle
and the screen size (Python `//` is floor division; the fifth position uses
`int(height * 0.85)`, which for nonnegative heights equals `85h / 100`
floored). These coordinates drive only GUI clicks; they do not feed back
into control flow. -/
def inputBoxPositions (rect : Int × Int × Int × Int) (scrW scrH : Int) :
    List (Int × Int) :=
  let (l, _t, r, b) := rect
  let w := r - l
  [ (l + Int.fdiv w 2, b - 80),
    (l + Int.fdiv w 2, b - 120),
    (l + Int.fdiv w 3, b - 100),
    (l + Int.fdiv (w * 2) 3, b - 100),
    (Int.fdiv scrW 2, Int.fdiv (scrH * 85) 100) ]

/-- `WeChatController._find_and_click_input_box`: re-resolve the window
(Python truthiness — handle `0` also counts as "not found"), compute the
five candidate positions, and try them in order; the first whose
click-and-probe does not raise yields `True`; `False` if all five raise. -/
def findAndClickInputBox (ws : List WindowInfo) (scrW scrH : Int)
    (env : InputBoxEnv) : Bool :=
  match findWechatWindow ws with
  | none => false
  | some hwnd =>
    if hwnd == 0 then false
    else
      match ws.find? (fun w => w.hwnd == hwnd) with
      | none => false
      | some w =>
        let positions := inputBoxPositions w.rect scrW scrH
        (List.range positions.length).any
          (fun i => !(env.posRaises.getD i false))

/-! ## Contact search (`_search_contact_nt` / `_search_contact_legacy`) -/

/-- Exception flags for the search sequence around the injection:
`preRaises` covers the shortcut/clear key presses before the injection,
`postRaises` the submit/advance presses after it. -/
structure SearchEnv where
  preRaises : Bool
  inject : InjectEnv
  postRaises : Bool
deriving Repr, DecidableEq

/-- Boolean result plus clipboard after a search attempt. -/
structure SearchResult where
  ok : Bool
  clipboard : Option String
deriving Repr, DecidableEq

/-- `WeChatController._search_contact_nt`: `Ctrl+F`, clear, inject the
contact name via the clipboard, then Enter/Down/Enter; any raise is caught
and yields `False`; a failed injection yields `False` directly. -/
def searchContactNT (env : SearchEnv) (clip : Option String)
    (contact : String) : SearchResult :=
  if env.preRaises then ⟨false, clip⟩
  else
    let inj := inputTextViaKeyboard env.inject clip contact
    if !inj.ok then ⟨false, inj.clipboard⟩
    else if env.postRaises then ⟨false, inj.clipboard⟩
    else ⟨true, inj.clipboard⟩

/-- `WeChatController._search_contact_legacy`: `Ctrl+F`, inject the contact
name, then Enter; same failure structure as the NT variant. -/
def searchContactLegacy (env : SearchEnv) (clip : Option String)
    (contact : String) : SearchResult :=
  if env.preRaises then ⟨false, clip⟩
  else
    let inj := inputTextViaKeyboard env.inject clip contact
    if !inj.ok then ⟨false, inj.clipboard⟩
    else if env.postRaises then ⟨false, inj.clipboard⟩
    else ⟨true, inj.clipboard⟩

/-- `WeChatController._search_contact`: dispatch on `self.is_nt_version`. -/
def searchContact (isNt : Bool) (env : SearchEnv) (clip : Option String)
    (contact : String) : SearchResult :=
  if isNt then searchContactNT env clip contact
  else searchContactLegacy env clip contact

/-! ## Send strategy ladder (`_send_text_nt` / `_send_text_legacy`) -/

/-- The key-combinations of the send ladder. -/
inductive SendKey where
  | enter
  | ctrlEnter
  | altS
deriving Repr, DecidableEq

/-- Environment of one send attempt: the input-box locator flags, the
injection flags for the message text, and one exception flag per
key-combination attempt of the ladder. -/
structure SendEnv where
  inputBox : InputBoxEnv
  inject : InjectEnv
  enterRaises : Bool
  ctrlEnterRaises : Bool
  altSRaises : Bool
deriving Repr, DecidableEq

/-- Result of a send attempt: the returned bool, the ladder attempts
actually made (in order), and the clipboard afterwards. -/
structure SendTextResult where
  ok : Bool
  attempts : List SendKey
  clipboard : Option String
deriving Repr, DecidableEq

/-- `WeChatController._send_text_nt`: locate and click the input box,
inject the message via the clipboard, then try Enter, then Ctrl+Enter,
then Alt+S; each attempt that raises is caught and the next is tried;
the first non-raising attempt sets success; `False` iff all three raise. -/
def sendTextNT (ws : List WindowInfo) (scrW scrH : Int) (env : SendEnv)
    (clip : Option String) (message : String) : SendTextResult :=
  if !findAndClickInputBox ws scrW scrH env.inputBox then ⟨false, [], clip⟩
  else
    let inj := inputTextViaKeyboard env.inject clip message
    if !inj.ok then ⟨false, [], inj.clipboard⟩
    else if !env.enterRaises then ⟨true, [SendKey.enter], inj.clipboard⟩
    else if !env.ctrlEnterRaises then
      ⟨true, [SendKey.enter, SendKey.ctrlEnter], inj.clipboard⟩
    else if !env.altSRaises then
      ⟨true, [SendKey.enter, SendKey.ctrlEnter, SendKey.altS], inj.clipboard⟩
    else ⟨false, [SendKey.enter, SendKey.ctrlEnter, SendKey.altS], inj.clipboard⟩

/-- `WeChatController._send_text_legacy`: same as the NT variant but the
ladder only has Enter then Ctrl+Enter — there is no Alt+S attempt. -/
def sendTextLegacy (ws : List WindowInfo) (scrW scrH : Int) (env : SendEnv)
    (clip : Option String) (message : String) : SendTextResult :=
  if !findAndClickInputBox ws scrW scrH env.inputBox then ⟨false, [], clip⟩
  else
    let inj := inputTextViaKeyboard env.inject clip message
    if !inj.ok then ⟨false, [], inj.clipboard⟩
    else if !env.enterRaises then ⟨true, [SendKey.enter], inj.clipboard⟩
    else if !env.ctrlEnterRaises then
      ⟨true, [SendKey.enter, SendKey.ctrlEnter], inj.clipboard⟩
    else ⟨false, [SendKey.enter, SendKey.ctrlEnter], inj.clipboard⟩

/-- `WeChatController._send_text`: dispatch on `self.is_nt_version`. -/
def sendText (isNt : Bool) (ws : List WindowInfo) (scrW scrH : Int)
    (env : SendEnv) (clip : Option String) (message : String) : SendTextResult :=
  if isNt then sendTextNT ws scrW scrH env clip message
  else sendTextLegacy ws scrW scrH env clip message

/-! ## Orchestrator (`send_text_message`) -/

/-- The internal steps of `send_text_message`, recorded in invocation
order so that control flow is observable. -/
inductive Stage where
  | versionCheck
  | findWindow
  | activateWindow
  | searchContact
  | sendText
deriving Repr, DecidableEq

/-- Whole-run environment: process list, window list, screen size, and the
per-step exception environments. -/
structure Env where
  procs : List ProcInfo
  windows : List WindowInfo
  screenW : Int
  screenH : Int
  activate : ActivateEnv
  search : SearchEnv
  send : SendEnv
deriving Repr, DecidableEq

/-- Result of one orchestrated run: the returned bool, the steps invoked,
the clipboard afterwards, and the detection cache afterwards. -/
structure RunResult where
  ok : Bool
  steps : List Stage
  clipboard : Option String
  state : CtrlState
deriving Repr, DecidableEq

/-- `WeChatController.send_text_message`: detect the version (updating the
cache), find the window (Python truthiness: handle `0` is "not found"),
activate it, search the contact, send the text; each failing step returns
`False` immediately. There is no version gate: detection only logs. -/
def sendTextMessage (env : Env) (st : CtrlState) (clip : Option String)
    (contact message : String) : RunResult :=
  let det := detectWechatVersion env.procs st
  let st1 := det.2
  match findWechatWindow env.windows with
  | none => ⟨false, [Stage.versionCheck, Stage.findWindow], clip, st1⟩
  | some hwnd =>
    if hwnd == 0 then ⟨false, [Stage.versionCheck, Stage.findWindow], clip, st1⟩
    else if !activateWindow env.activate hwnd then
      ⟨false, [Stage.versionCheck, Stage.findWindow, Stage.activateWindow],
        clip, st1⟩
    else
      let sr := searchContact st1.is_nt_version env.search clip contact
      if !sr.ok then
        ⟨false, [Stage.versionCheck, Stage.findWindow, Stage.activateWindow,
          Stage.searchContact], sr.clipboard, st1⟩
      else
        let tr := sendText st1.is_nt_version env.windows env.screenW env.screenH
          env.send sr.clipboard message
        ⟨tr.ok, [Stage.versionCheck, Stage.findWindow, Stage.activateWindow,
          Stage.searchContact, Stage.sendText], tr.clipboard, st1⟩

/-! ## Scheduler (`schedule_message`) -/

/-- The deferred task created by `schedule_message`: fixed contact, message
and delay; no cancellation handle. -/
structure ScheduledTask where
  contact : String
  message : String
  delay : Nat
deriving Repr, DecidableEq

/-- `WeChatController.schedule_message`: create the `delayed_send` task via
`asyncio.create_task` and return `True` immediately; the task is not
awaited. -/
def scheduleMessage (contact message : String) (delay : Nat) :
    Bool × ScheduledTask :=
  (true, ⟨contact, message, delay⟩)

/-- Cooperative-scheduler semantics of the deferred task: `delayed_send`
first `await asyncio.sleep(delay)`, so the orchestrator invocation starts
at `scheduledAt + delay`; its outcome is only logged. Returns the start
time of the send together with its result. -/
def runScheduledTask (t : ScheduledTask) (scheduledAt : Nat) (env : Env)
    (st : CtrlState) (clip : Option String) : Nat × RunResult :=
  (scheduledAt + t.delay, sendTextMessage env st clip t.contact t.message)

/-! ## MCP server (`mcp_server.py`) -/

/-- The structured outcome dictionary that `_execute_send_message` is
prepared to receive from a controller (`send_result.get("ok")`,
`"stage"`, `"reason"`, `"wechat_version"`, `"is_nt_framework"`). -/
structure SendOutcome where
  ok : Bool
  stage : String
  reason : Option String
  wechat_version : Option String
  is_nt_framework : Bool
deriving Repr, DecidableEq

/-- The dynamic type of the return value of the controller as discriminated by
`isinstance(send_result, bool)` in `_execute_send_message`. -/
inductive PyResult where
  | asBool : Bool → PyResult
  | asOutcome : SendOutcome → PyResult
deriving Repr, DecidableEq

/-- Whether the controller result is a structured outcome dictionary. -/
def PyResult.isOutcome : PyResult → Bool
  | PyResult.asBool _ => false
  | PyResult.asOutcome _ => true

/-- What `controller.send_text_message` actually hands the dispatcher: the
`src` controller returns a plain Python bool, never a dictionary; the
dispatcher constructs a fresh controller, so the initial cache is used. -/
def pyResultOfSend (env : Env) (clip : Option String)
    (contact message : String) : PyResult :=
  PyResult.asBool (sendTextMessage env initialCtrlState clip contact message).ok

/-- A JSON-RPC error object. -/
structure RpcError where
  code : Int
  message : String
deriving Repr, DecidableEq

/-- A JSON-RPC response as built by `JSONRPCResponse`: the result is
modelled by its single content text when present. -/
structure RpcResponse where
  result : Option String
  error : Option RpcError
  id : Option Nat
deriving Repr, DecidableEq

/-- The named arguments of a `tools/call`, as read by `arguments.get`. -/
structure ToolArgs where
  contact_name : Option String
  message : Option String
  delay_seconds : Option Nat
deriving Repr, DecidableEq

/-- The parenthesised diagnostic suffix `_execute_send_message` builds when
the controller result is a dictionary. -/
def outcomeExtra (o : SendOutcome) : String :=
  " (stage=" ++ o.stage ++ ", reason=" ++ pyOptStr o.reason ++
    ", wechat_version=" ++ pyOptStr o.wechat_version ++
    ", nt=" ++ pyBoolStr o.is_nt_framework ++ ")"

/-- `MCPServer._execute_send_message`: reject falsy (`None` or `""`)
`contact_name`/`message` with `-32602` before constructing the controller;
otherwise run the orchestrator and map the result to a content text.
The second component records whether the controller was invoked. -/
def executeSendMessage (env : Env) (clip : Option String) (args : ToolArgs)
    (id : Option Nat) : RpcResponse × Bool :=
  if !truthy args.contact_name || !truthy args.message then
    (⟨none, some ⟨-32602, "Missing required parameters: contact_name and message"⟩,
      id⟩, false)
  else
    let contact := args.contact_name.getD ""
    let msg := args.message.getD ""
    let r := pyResultOfSend env clip contact msg
    let success := match r with
      | PyResult.asBool b => b
      | PyResult.asOutcome o => o.ok
    if success then (⟨some "Message sent successfully", none, id⟩, true)
    else
      let extra := match r with
        | PyResult.asBool _ => ""
        | PyResult.asOutcome o => outcomeExtra o
      (⟨some ("Failed to send message" ++ extra), none, id⟩, true)

/-- `MCPServer._execute_schedule_message`: reject falsy `contact_name` or
`message`, or an absent `delay_seconds` (`is None` — `0` passes), with
`-32602` before constructing the controller; otherwise schedule and report.
Components: the response, whether the controller was invoked, and the
scheduled task when one was created (fire-and-forget: its eventual
outcome is not part of the response). -/
def executeScheduleMessage (args : ToolArgs) (id : Option Nat) :
    RpcResponse × Bool × Option ScheduledTask :=
  if !truthy args.contact_name || !truthy args.message ||
      args.delay_seconds.isNone then
    (⟨none, some ⟨-32602,
      "Missing required parameters: contact_name, message and delay_seconds"⟩,
      id⟩, false, none)
  else
    let contact := args.contact_name.getD ""
    let msg := args.message.getD ""
    let delay := args.delay_seconds.getD 0
    let s := scheduleMessage contact msg delay
    if s.1 then
      (⟨some ("Message scheduled to be sent in " ++ toString delay ++ " seconds"),
        none, id⟩, true, some s.2)
    else
      (⟨some "Failed to schedule message", none, id⟩, true, none)

/-- `MCPServer._handle_tools_call`: reject with `-32002` when the server is
not initialized — before the tool name is even read; then dispatch on the
tool name, rejecting unknown names with `-32601`. The second component
records whether a controller method was invoked. -/
def handleToolsCall (initialized : Bool) (env : Env) (clip : Option String)
    (toolName : Option String) (args : ToolArgs) (id : Option Nat) :
    RpcResponse × Bool :=
  if !initialized then
    (⟨none, some ⟨-32002, "Server not initialized"⟩, id⟩, false)
  else if toolName == some "send_wechat_message" then
    executeSendMessage env clip args id
  else if toolName == some "schedule_wechat_message" then
    let r := executeScheduleMessage args id
    (r.1, r.2.1)
  else
    (⟨none, some ⟨-32601, "Unknown tool: " ++ pyOptStr toolName⟩, id⟩, false)

/-! ## Concrete environments used by witnesses and counterexamples -/

/-- A running WeChat process whose version resource reads `3.0.0.0`
(legacy major version). -/
def procWeChat3 : ProcInfo :=
  ⟨some "WeChat.exe", some "C:/WeChat/WeChat.exe", some (3 <<< 16, 0)⟩

/-- A visible legacy window: title contains "微信", class name matches no
NT pattern. -/
def wLegacy : WindowInfo := ⟨5, true, "微信", "SomeWndClass", (0, 0, 800, 600)⟩

/-- A visible NT-classified window (exact main-window class name). -/
def wNt : WindowInfo := ⟨7, true, "WeChat", "WeChatMainWndForPC", (0, 0, 800, 600)⟩

/-- An injection environment in which no operation raises. -/
def injNoRaise : InjectEnv := ⟨false, false, false, false⟩

/-- A run environment in which every automation step succeeds: a legacy
3.0.0.0 install, one legacy window, no exceptions anywhere. -/
def envHappy : Env :=
  { procs := [procWeChat3]
    windows := [wLegacy]
    screenW := 1920
    screenH := 1080
    activate := ⟨false, false, true⟩
    search := ⟨false, injNoRaise, false⟩
    send := ⟨⟨[]⟩, injNoRaise, false, false, false⟩ }

/-! ## Helper lemmas -/

/-- Unfolding lemma: when the detection loop finds a usable process, the
detector returns its version string and caches the major-version flag. -/
theorem detect_of_firstDetectable (procs : List ProcInfo) (st : CtrlState)
    (ms ls : Nat) (h : firstDetectable procs = some (ms, ls)) :
    detectWechatVersion procs st =
      (some (versionString ms ls),
       ⟨some (versionString ms ls), decide (4 ≤ ms >>> 16)⟩) := by
  induction procs with
  | nil => simp [firstDetectable] at h
  | cons p ps ih =>
    cases hg : (procNameMatches p.name && truthy p.exe) with
    | false =>
      rw [firstDetectable, hg] at h
      rw [detectWechatVersion, hg]
      simp only [Bool.false_eq_true, if_false]
      exact ih h
    | true =>
      cases hf : p.fileVersion with
      | none =>
        rw [firstDetectable, hg] at h
        rw [detectWechatVersion, hg]
        simp only [if_true, hf] at h ⊢
        exact ih h
      | some v =>
        obtain ⟨a, b⟩ := v
        rw [firstDetectable, hg] at h
        rw [detectWechatVersion, hg]
        simp only [if_true, hf, Option.some.injEq, Prod.mk.injEq] at h ⊢
        obtain ⟨h1, h2⟩ := h
        subst h1
        subst h2
        exact ⟨rfl, rfl⟩

/-- The orchestrator trace always contains the window-discovery step,
whatever the environment. -/
theorem findWindow_mem_steps (env : Env) (st : CtrlState)
    (clip : Option String) (contact message : String) :
    Stage.findWindow ∈ (sendTextMessage env st clip contact message).steps := by
  unfold sendTextMessage
  cases findWechatWindow env.windows with
  | none => simp
  | some hwnd =>
    cases h0 : (hwnd == 0) <;>
    cases ha : activateWindow env.activate hwnd <;>
    cases hs : (searchContact (detectWechatVersion env.procs st).2.is_nt_version
      env.search clip contact).ok <;>
    simp [h0, ha, hs]

/-- The detection cache after a run is exactly what the detector produced. -/
theorem run_state_eq (env : Env) (st : CtrlState) (clip : Option String)
    (contact message : String) :
    (sendTextMessage env st clip contact message).state =
      (detectWechatVersion env.procs st).2 := by
  unfold sendTextMessage
  cases findWechatWindow env.windows with
  | none => simp
  | some hwnd =>
    cases h0 : (hwnd == 0) <;>
    cases ha : activateWindow env.activate hwnd <;>
    cases hs : (searchContact (detectWechatVersion env.procs st).2.is_nt_version
      env.search clip contact).ok <;>
    simp [h0, ha, hs]

/-- When no injection operation raises and the entry clipboard was
readable, the injection succeeds, restores the snapshot and reports it. -/
theorem inject_noRaise_roundtrip (e : InjectEnv) (c t : String)
    (h : e.noRaise = true) :
    inputTextViaKeyboard e (some c) t = ⟨true, some c, true⟩ := by
  simp only [InjectEnv.noRaise, Bool.and_eq_true, Bool.not_eq_true'] at h
  obtain ⟨⟨⟨h1, h2⟩, h3⟩, h4⟩ := h
  simp [inputTextViaKeyboard, h1, h2, h3, h4]

/-- Whatever the search outcome, the clipboard is preserved when the
injection operations of the search do not raise. -/
theorem searchContact_clip (isNt : Bool) (env : SearchEnv) (c contact : String)
    (h : env.inject.noRaise = true) :
    (searchContact isNt env (some c) contact).clipboard = some c := by
  have hi := inject_noRaise_roundtrip env.inject c contact h
  cases isNt <;>
    simp only [searchContact, searchContactNT, searchContactLegacy,
      if_true, if_false, Bool.false_eq_true] <;>
    cases hp : env.preRaises <;>
    cases hq : env.postRaises <;>
    simp [hi, hp, hq]

/-- Whatever the send outcome, the clipboard is preserved when the
injection operations of the send do not raise. -/
theorem sendText_clip (isNt : Bool) (ws : List WindowInfo) (scrW scrH : Int)
    (env : SendEnv) (c message : String)
    (h : env.inject.noRaise = true) :
    (sendText isNt ws scrW scrH env (some c) message).clipboard = some c := by
  have hi := inject_noRaise_roundtrip env.inject c message h
  cases isNt <;>
    simp only [sendText, sendTextNT, sendTextLegacy,
      if_true, if_false, Bool.false_eq_true] <;>
    cases hb : findAndClickInputBox ws scrW scrH env.inputBox <;>
    cases he : env.enterRaises <;>
    cases hc : env.ctrlEnterRaises <;>
    cases hs : env.altSRaises <;>
    simp [hi, hb, he, hc, hs]

/-! ## C1 — version gate -/

/-- A legacy-version environment with no window at all: version `3.0.0.0`
detected, no NT-classified window present. -/
def envC1 : Env := { envHappy with windows := [] }

/-- C1. The claim as stated is false on the code: with a detected major
version `3` and no NT window, `send_text_message` still invokes the
window-discovery step — the run does not terminate at the version check. -/
theorem claim1_counterexample :
    (sendTextMessage envC1 initialCtrlState none "Alice" "hi").state.is_nt_version
      = false ∧
    Stage.findWindow ∈
      (sendTextMessage envC1 initialCtrlState none "Alice" "hi").steps := by
  constructor
  · rfl
  · decide

/-- C1 (amended). For every run in which version detection finds a process
with major version < 4 and no enumerated window classifies as NT, the
cached capability flag `is_nt_version` is false — but the orchestrator does
not stop: the window-discovery step is always part of the trace of the run
(there is no fail-closed version gate in the code). -/
theorem claim1_version_no_gate (env : Env) (st : CtrlState)
    (clip : Option String) (contact message : String) (ms ls : Nat)
    (hdet : firstDetectable env.procs = some (ms, ls))
    (hmaj : ms >>> 16 < 4)
    (_hnont : ∀ w ∈ env.windows, classifyWindow w ≠ some WinKind.nt) :
    (sendTextMessage env st clip contact message).state.is_nt_version = false ∧
    Stage.findWindow ∈ (sendTextMessage env st clip contact message).steps := by
  constructor
  · rw [run_state_eq, detect_of_firstDetectable env.procs st ms ls hdet]
    simp only [decide_eq_false_iff_not, Nat.not_le]
    exact hmaj
  · exact findWindow_mem_steps env st clip contact message

/-- C1 witness: the amended theorem applied to the concrete legacy
environment. -/
theorem claim1_version_no_gate_witness :
    (sendTextMessage envC1 initialCtrlState none "Alice" "hi").state.is_nt_version
      = false ∧
    Stage.findWindow ∈
      (sendTextMessage envC1 initialCtrlState none "Alice" "hi").steps :=
  claim1_version_no_gate envC1 initialCtrlState none "Alice" "hi"
    (3 <<< 16) 0 (by decide) (by decide) (by intro w hw; simp [envC1, envHappy] at hw)

/-! ## C2 — result shape when no window is found -/

/-- The happy environment with an empty window enumeration. -/
def envNoWindow : Env := { envHappy with windows := [] }

/-- C2. The claim as stated is false on the code: when window enumeration
yields no matching window, the value handed to the dispatcher is the plain
Python boolean `False`, not a structured outcome carrying a stage. -/
theorem claim2_counterexample :
    (pyResultOfSend envNoWindow (some "orig") "Alice" "hi").isOutcome = false ∧
    pyResultOfSend envNoWindow (some "orig") "Alice" "hi"
      = PyResult.asBool false := by
  decide

/-- C2 (amended). Whenever the locator yields no window, `send_text_message`
returns `False`, the run ends right after the window-discovery step, and the
dispatcher receives a plain boolean (never a structured outcome with a
`stage` field). -/
theorem claim2_bool_false_at_find_window (env : Env) (st : CtrlState)
    (clip : Option String) (contact message : String)
    (h : findWechatWindow env.windows = none) :
    (sendTextMessage env st clip contact message).ok = false ∧
    (sendTextMessage env st clip contact message).steps
      = [Stage.versionCheck, Stage.findWindow] ∧
    (pyResultOfSend env clip contact message).isOutcome = false := by
  refine ⟨?_, ?_, ?_⟩
  · unfold sendTextMessage
    rw [h]
  · unfold sendTextMessage
    rw [h]
  · simp [pyResultOfSend, PyResult.isOutcome]

/-- C2 witness: the amended theorem at the concrete empty-enumeration
environment. -/
theorem claim2_bool_false_at_find_window_witness :
    (sendTextMessage envNoWindow initialCtrlState (some "orig") "Alice" "hi").ok
      = false ∧
    (sendTextMessage envNoWindow initialCtrlState (some "orig") "Alice" "hi").steps
      = [Stage.versionCheck, Stage.findWindow] ∧
    (pyResultOfSend envNoWindow (some "orig") "Alice" "hi").isOutcome = false :=
  claim2_bool_false_at_find_window envNoWindow initialCtrlState (some "orig")
    "Alice" "hi" (by decide)

/-! ## C3 — clipboard round trip -/

/-- The happy environment, except that the paste during the contact-search
injection raises. -/
def envC3 : Env :=
  { envHappy with search := ⟨false, ⟨false, false, true, false⟩, false⟩ }

/-- C3. The claim as stated is false on the code: the clipboard was
readable at entry (`some "orig"`), yet after a run in which the paste step
raised, the clipboard holds the injected contact name — and the restore
step was never reached on that exception path. -/
theorem claim3_counterexample :
    (sendTextMessage envC3 initialCtrlState (some "orig") "Alice" "hi").clipboard
      = some "Alice" ∧
    (sendTextMessage envC3 initialCtrlState (some "orig") "Alice" "hi").clipboard
      ≠ some "orig" ∧
    (inputTextViaKeyboard envC3.search.inject (some "orig") "Alice").restoreAttempted
      = false := by
  refine ⟨by decide, by decide, by decide⟩

/-- C3 (amended). The round-trip law holds only on the non-exception paths:
whenever the clipboard was readable at entry and none of the injection
operations (of either the search or the send step) raises, the clipboard
after the run equals the clipboard before it. On exception paths inside an
injection no restore is attempted. -/
theorem claim3_roundtrip_no_raise (env : Env) (st : CtrlState) (c : String)
    (contact message : String)
    (h1 : env.search.inject.noRaise = true)
    (h2 : env.send.inject.noRaise = true) :
    (sendTextMessage env st (some c) contact message).clipboard = some c := by
  unfold sendTextMessage
  cases findWechatWindow env.windows with
  | none => simp
  | some hwnd =>
    have hs := searchContact_clip
      (detectWechatVersion env.procs st).2.is_nt_version env.search c contact h1
    cases h0 : (hwnd == 0) <;>
    cases ha : activateWindow env.activate hwnd <;>
    cases hok : (searchContact (detectWechatVersion env.procs st).2.is_nt_version
        env.search (some c) contact).ok <;>
    simp [h0, ha, hok, hs] <;>
    exact sendText_clip _ env.windows env.screenW env.screenH env.send c message h2

/-- C3 witness: the round-trip law at the concrete no-exception
environment. -/
theorem claim3_roundtrip_no_raise_witness :
    (sendTextMessage envHappy initialCtrlState (some "orig") "Alice" "hi").clipboard
      = some "orig" :=
  claim3_roundtrip_no_raise envHappy initialCtrlState "orig" "Alice" "hi"
    (by decide) (by decide)

/-! ## C4 — foreground activation -/

/-- An activation environment in which neither call raises but the window
does not end up in the foreground. -/
def actEnvNotForeground : ActivateEnv := ⟨false, false, false⟩

/-- C4. The claim as stated is false on the code: with the window not
confirmed foreground, `_activate_window` still returns `True` — there is no
bypass-and-poll sequence and no foreground confirmation at all. -/
theorem claim4_counterexample :
    activateWindow actEnvNotForeground 7 = true ∧
    actEnvNotForeground.windowIsForegroundAfter = false := by
  decide

/-- C4 (amended). `_activate_window` returns `True` exactly when neither
`ShowWindow` nor `SetForegroundWindow` raises; the foreground status is
never consulted, so even for a window that is not foreground afterwards the
function reports success. -/
theorem claim4_activate_unconfirmed (env : ActivateEnv) (hwnd : Nat)
    (_h : env.windowIsForegroundAfter = false) :
    activateWindow env hwnd = true ↔
      (env.showWindowRaises = false ∧ env.setForegroundRaises = false) := by
  cases hs : env.showWindowRaises <;>
    cases hf : env.setForegroundRaises <;>
    simp [activateWindow, hs, hf]

/-- C4 witness: the amended theorem at the concrete not-foregrounded
environment. -/
theorem claim4_activate_unconfirmed_witness :
    activateWindow actEnvNotForeground 7 = true :=
  (claim4_activate_unconfirmed actEnvNotForeground 7 rfl).mpr ⟨rfl, rfl⟩

/-! ## C5 — send strategy ladder -/

/-- A send environment in which Enter and Ctrl+Enter raise but Alt+S would
succeed, with working input box and injection. -/
def sendEnvC5 : SendEnv := ⟨⟨[]⟩, injNoRaise, true, true, false⟩

/-- C5. The claim as stated is false on the code: in the legacy send path,
with Enter and Ctrl+Enter raising and Alt+S available, only Enter and
Ctrl+Enter are attempted — Alt+S is skipped and failure is returned even
though not all three key-combinations raised. -/
theorem claim5_counterexample :
    (sendTextLegacy [wLegacy] 1920 1080 sendEnvC5 (some "c") "hi").ok = false ∧
    (sendTextLegacy [wLegacy] 1920 1080 sendEnvC5 (some "c") "hi").attempts
      = [SendKey.enter, SendKey.ctrlEnter] ∧
    sendEnvC5.altSRaises = false := by
  refine ⟨by decide, by decide, by decide⟩

/-- C5 (amended). After a successful input-box location and text injection,
the NT send path attempts Enter, then Ctrl+Enter, then Alt+S, in that
order, stopping at the first non-raising attempt and failing only when all
three raise; the legacy send path attempts only Enter then Ctrl+Enter and
never attempts Alt+S. -/
theorem claim5_send_ladder (ws : List WindowInfo) (scrW scrH : Int)
    (env : SendEnv) (clip : Option String) (message : String)
    (hbox : findAndClickInputBox ws scrW scrH env.inputBox = true)
    (hinj : (inputTextViaKeyboard env.inject clip message).ok = true) :
    ((sendTextNT ws scrW scrH env clip message).attempts
        = (if !env.enterRaises then [SendKey.enter]
           else if !env.ctrlEnterRaises then [SendKey.enter, SendKey.ctrlEnter]
           else [SendKey.enter, SendKey.ctrlEnter, SendKey.altS]) ∧
      (sendTextNT ws scrW scrH env clip message).ok
        = (!env.enterRaises || !env.ctrlEnterRaises || !env.altSRaises)) ∧
    ((sendTextLegacy ws scrW scrH env clip message).attempts
        = (if !env.enterRaises then [SendKey.enter]
           else [SendKey.enter, SendKey.ctrlEnter]) ∧
      (sendTextLegacy ws scrW scrH env clip message).ok
        = (!env.enterRaises || !env.ctrlEnterRaises) ∧
      SendKey.altS ∉ (sendTextLegacy ws scrW scrH env clip message).attempts) := by
  cases he : env.enterRaises <;>
    cases hc : env.ctrlEnterRaises <;>
    cases hs : env.altSRaises <;>
    simp [sendTextNT, sendTextLegacy, hbox, hinj, he, hc, hs]

/-- C5 witness: the ladder characterisation at the counterexample
environment (Enter and Ctrl+Enter raise, Alt+S would succeed). -/
theorem claim5_send_ladder_witness :
    ((sendTextNT [wLegacy] 1920 1080 sendEnvC5 (some "c") "hi").attempts
        = [SendKey.enter, SendKey.ctrlEnter, SendKey.altS] ∧
      (sendTextNT [wLegacy] 1920 1080 sendEnvC5 (some "c") "hi").ok = true) ∧
    ((sendTextLegacy [wLegacy] 1920 1080 sendEnvC5 (some "c") "hi").attempts
        = [SendKey.enter, SendKey.ctrlEnter] ∧
      (sendTextLegacy [wLegacy] 1920 1080 sendEnvC5 (some "c") "hi").ok = false) := by
  have h := claim5_send_ladder [wLegacy] 1920 1080 sendEnvC5 (some "c") "hi"
    (by decide) (by decide)
  exact ⟨⟨by simpa using h.1.1, by simpa using h.1.2⟩,
    ⟨by simpa using h.2.1, by simpa using h.2.2.1⟩⟩

/-! ## C6 — locator priority -/

/-- C6 (confirmed). The candidate ordering of the locator: if the enumeration
produced any NT-classified candidate, the first one is returned; with no NT
candidate but some candidate, the first (necessarily legacy-classified)
candidate is returned; with no candidate at all, none is returned. -/
theorem claim6_locator_priority (ws : List WindowInfo) :
    (∀ c rest,
      (wechatCandidates ws).filter (fun x => x.2 == WinKind.nt) = c :: rest →
        findWechatWindow ws = some c.1) ∧
    ((wechatCandidates ws).filter (fun x => x.2 == WinKind.nt) = [] →
      ∀ c rest, wechatCandidates ws = c :: rest →
        findWechatWindow ws = some c.1) ∧
    (wechatCandidates ws = [] → findWechatWindow ws = none) := by
  refine ⟨?_, ?_, ?_⟩
  · intro c rest h
    unfold findWechatWindow
    rw [h]
  · intro hnil c rest h
    unfold findWechatWindow
    rw [hnil, h]
  · intro h
    unfold findWechatWindow
    rw [h]
    rfl

/-- C6 witness: the three cases of the priority at concrete enumerations —
one with both kinds present (the NT window wins even though the legacy one
is enumerated first), one with only a legacy window, one empty. -/
theorem claim6_locator_priority_witness :
    findWechatWindow [wLegacy, wNt] = some 7 ∧
    findWechatWindow [wLegacy] = some 5 ∧
    findWechatWindow ([] : List WindowInfo) = none := by
  refine ⟨?_, ?_, ?_⟩
  · exact (claim6_locator_priority [wLegacy, wNt]).1 (7, WinKind.nt) [] (by decide)
  · exact (claim6_locator_priority [wLegacy]).2.1 (by decide) (5, WinKind.legacy)
      [] (by decide)
  · exact (claim6_locator_priority []).2.2 (by decide)

/-! ## C7 — fire-and-forget scheduling -/

/-- C7 (confirmed). Scheduling always reports `True` to its caller, the
deferred orchestrator invocation starts no earlier than `delay` after the
scheduling instant, and the dispatcher response to a well-formed schedule
request is fixed text that carries the delay but no send outcome — the
response is produced before the deferred task runs and does not depend on
any automation environment. -/
theorem claim7_schedule_fire_and_forget (contact message : String)
    (delay : Nat) (args : ToolArgs) (id : Option Nat) (env : Env)
    (st : CtrlState) (clip : Option String) (t0 : Nat)
    (hc : args.contact_name = some contact) (hcne : contact ≠ "")
    (hm : args.message = some message) (hmne : message ≠ "")
    (hd : args.delay_seconds = some delay) :
    (scheduleMessage contact message delay).1 = true ∧
    t0 + delay ≤
      (runScheduledTask (scheduleMessage contact message delay).2 t0 env st clip).1 ∧
    executeScheduleMessage args id =
      (⟨some ("Message scheduled to be sent in " ++ toString delay ++ " seconds"),
        none, id⟩, true, some ⟨contact, message, delay⟩) := by
  refine ⟨rfl, le_refl _, ?_⟩
  simp [executeScheduleMessage, truthy, hc, hm, hd, hcne, hmne, scheduleMessage]

/-- C7 witness: scheduling "hi" to "Bob" with a 5-second delay. -/
theorem claim7_schedule_fire_and_forget_witness :
    (scheduleMessage "Bob" "hi" 5).1 = true ∧
    10 + 5 ≤ (runScheduledTask (scheduleMessage "Bob" "hi" 5).2 10 envHappy
      initialCtrlState none).1 ∧
    executeScheduleMessage ⟨some "Bob", some "hi", some 5⟩ (some 2) =
      (⟨some "Message scheduled to be sent in 5 seconds", none, some 2⟩,
        true, some ⟨"Bob", "hi", 5⟩) :=
  claim7_schedule_fire_and_forget "Bob" "hi" 5 ⟨some "Bob", some "hi", some 5⟩
    (some 2) envHappy initialCtrlState none 10 rfl (by decide) rfl (by decide) rfl

/-! ## C8 — tools/call before initialization -/

/-- C8 (confirmed). A `tools/call` handled while the server is not yet
initialized is answered with error code `-32002`, for every tool name
(known or unknown), every argument object and every request id, and no
controller operation is invoked. -/
theorem claim8_not_initialized (env : Env) (clip : Option String)
    (toolName : Option String) (args : ToolArgs) (id : Option Nat) :
    handleToolsCall false env clip toolName args id =
      (⟨none, some ⟨-32002, "Server not initialized"⟩, id⟩, false) := by
  rfl

/-! ## C9 — truthiness-based parameter validation -/

/-- C9 (confirmed). An empty-string `contact_name` or `message` (for either
tool), or an absent `delay_seconds` (for scheduling), is rejected with
invalid-params error `-32602`, and the controller is not invoked (second
component `false`): presence is tested by Python truthiness, so the empty
string fails the check exactly like a missing key. -/
theorem claim9_truthiness_invalid_params (env : Env) (clip : Option String)
    (args : ToolArgs) (id : Option Nat) :
    ((args.contact_name = some "" ∨ args.message = some "") →
      executeSendMessage env clip args id =
        (⟨none, some ⟨-32602,
          "Missing required parameters: contact_name and message"⟩, id⟩,
         false)) ∧
    ((args.contact_name = some "" ∨ args.message = some "" ∨
        args.delay_seconds = none) →
      executeScheduleMessage args id =
        (⟨none, some ⟨-32602,
          "Missing required parameters: contact_name, message and delay_seconds"⟩,
          id⟩, false, none)) := by
  constructor
  · rintro (h | h) <;> simp [executeSendMessage, truthy, h]
  · rintro (h | h | h) <;> simp [executeScheduleMessage, truthy, h]

/-- C9 witness: both tools rejecting the all-empty argument object. -/
theorem claim9_truthiness_invalid_params_witness :
    executeSendMessage envHappy none ⟨some "", some "", none⟩ (some 1) =
      (⟨none, some ⟨-32602,
        "Missing required parameters: contact_name and message"⟩, some 1⟩,
       false) ∧
    executeScheduleMessage ⟨some "", some "", none⟩ (some 1) =
      (⟨none, some ⟨-32602,
        "Missing required parameters: contact_name, message and delay_seconds"⟩,
        some 1⟩, false, none) :=
  ⟨(claim9_truthiness_invalid_params envHappy none ⟨some "", some "", none⟩
      (some 1)).1 (Or.inl rfl),
   (claim9_truthiness_invalid_params envHappy none ⟨some "", some "", none⟩
      (some 1)).2 (Or.inl rfl)⟩

/-! ## C10 — null snapshot skips the restore -/

/-- C10 (confirmed). When the entry clipboard yields no text content
(snapshot `None`), a successful injection never reaches the restore step
and leaves the injected text on the clipboard. -/
theorem claim10_null_snapshot_no_restore (e : InjectEnv) (text : String)
    (h1 : e.clearRaises = false) (h2 : e.setClipboardRaises = false)
    (h3 : e.pasteRaises = false) :
    inputTextViaKeyboard e none text = ⟨true, some text, false⟩ := by
  simp [inputTextViaKeyboard, h1, h2, h3]

/-- C10 witness: injecting "你好" over an unreadable clipboard leaves the
message on the clipboard, restore never attempted. -/
theorem claim10_null_snapshot_no_restore_witness :
    inputTextViaKeyboard injNoRaise none "你好" = ⟨true, some "你好", false⟩ :=
  claim10_null_snapshot_no_restore injNoRaise "你好" rfl rfl rfl

end WeChatMCP
